import Mathlib

/-!
# E-ink frontlight brightness controller (`bsp::eink_frontlight`)

A shallow embedding of
`module-bsp/board/rt1051/bsp/eink_frontlight/eink_frontlight.cpp`.

* C++ `float` values are modelled exactly: every finite `float` is a rational
  number, and the three non-finite values are separate constructors.
* `std::uint8_t`, `std::uint16_t` and `std::uint32_t` values are natural
  numbers, with an explicit `% 2 ^ w` wherever the C++ arithmetic can wrap.
* The file-scope globals `pwm` and `gammaFactor` become the fields of `State`,
  which is passed explicitly.  A call through a null `pwm` has no defined
  behaviour in C++; the embedding returns `none` for it.
* The PWM driver class is not part of the translated file.  Its observable
  behaviour (the calls it receives, and what they do to the channel) is kept in
  the `hal` field of `State`.
-/

namespace EinkFrontlight

/-! ## Floating-point values -/

/-- A value of the C++ type `float`.  Finite values are carried as the rational
number they denote. -/
inductive FloatVal where
  | finite (q : ℚ)
  | posInf
  | negInf
  | nan

/-- The type alias `BrightnessPercentage` of the header is `float`. -/
abbrev BrightnessPercentage := FloatVal

/-- IEEE comparison `a < b` on `float`: false as soon as one side is NaN. -/
def FloatVal.lt : FloatVal → FloatVal → Bool
  | .finite a, .finite b => decide (a < b)
  | .finite _, .posInf => true
  | .negInf, .finite _ => true
  | .negInf, .posInf => true
  | _, _ => false

/-- The function template `std::clamp(v, lo, hi)`:
`(v < lo) ? lo : (hi < v) ? hi : v`.  It returns the clamped value and leaves
its arguments untouched. -/
def clamp (v lo hi : FloatVal) : FloatVal :=
  if FloatVal.lt v lo then lo else if FloatVal.lt hi v then hi else v

/-- Truncation toward zero, the rounding of a floating-integral conversion. -/
def truncToInt (q : ℚ) : ℤ :=
  if 0 ≤ q then Int.floor q else Int.ceil q

/-! ## Platform constants and target behaviour not fixed by the translated file -/

/-- What the translated file takes from elsewhere.

* `EINK_FRONTLIGHT_PWM_INSTANCE`, `EINK_FRONTLIGHT_PWM_MODULE` and
  `EINK_FRONTLIGHT_PWM_CHANNEL` are the `BoardDefinitions` constants.
* `outOfRangeConversion` is the byte the target produces when a `float` whose
  truncated value does not fit `std::uint8_t` (or a non-finite `float`) is
  converted; C++ leaves that result undefined, so it is a parameter, and it is
  only consulted in that case.
* `defaultMapping` is the percent-to-reload mapping a freshly created driver
  uses until another one is registered. -/
structure Target where
  EINK_FRONTLIGHT_PWM_INSTANCE : ℕ
  EINK_FRONTLIGHT_PWM_MODULE : ℕ
  EINK_FRONTLIGHT_PWM_CHANNEL : ℕ
  outOfRangeConversion : FloatVal → ℕ
  defaultMapping : ℕ → ℕ

/-- The conversion `static_cast<std::uint8_t>(x)` of a `float`: the fractional
part is discarded; when the truncated value lies in `0 .. 255` it is the
result, otherwise the target decides. -/
def toUInt8 (T : Target) : FloatVal → ℕ
  | .finite q =>
    if 0 ≤ truncToInt q ∧ truncToInt q ≤ 255 then (truncToInt q).toNat
    else T.outOfRangeConversion (.finite q) % 2 ^ 8
  | v => T.outOfRangeConversion v % 2 ^ 8

/-- Modelled from the spec: `bsp::HzPerMHz`, declared in a header that is not
part of the translated file; the spec converts 528 MHz to 528_000_000 Hz. -/
def HzPerMHz : ℕ := 1000000

/-! ## Constants and pure helpers of the anonymous namespace -/

/-- The constant `minDutyCycle = 2U`. -/
def minDutyCycle : ℕ := 2

/-- The constant `maxDutyCycle = 65535U`. -/
def maxDutyCycle : ℕ := 65535

/-- The function `dutyCycleToReloadValue(std::uint8_t) -> std::uint16_t`:
`dutyCyclePercent < 50 ? 0U : dutyCyclePercent - 50U`, the result narrowed to
16 bits.  The subtraction is only evaluated when `50 ≤ dutyCyclePercent`, so
the unsigned difference never wraps.  The parameter is a byte: every caller
passes a value below 256. -/
def dutyCycleToReloadValue (dutyCyclePercent : ℕ) : ℕ :=
  if dutyCyclePercent < 50 then 0 else (dutyCyclePercent - 50) % 2 ^ 16

/-- The constant `PWM_FREQUENCY_HZ = 528000000UL * minDutyCycle / maxDutyCycle`
(`unsigned long` is 32 bits wide on the target). -/
def PWM_FREQUENCY_HZ : ℕ := 528000000 * minDutyCycle % 2 ^ 32 / maxDutyCycle

/-- The function `gammaCorrection(BrightnessPercentage) -> std::uint8_t`.  The
global `gammaFactor` is in scope and passed explicitly; the body calls
`std::clamp` and drops its result, then converts `brightness` itself. -/
def gammaCorrection (T : Target) (_gammaFactor : FloatVal)
    (brightness : BrightnessPercentage) : ℕ :=
  let _ := clamp brightness (.finite 0) (.finite 100)
  toUInt8 T brightness

/-- The constant `pwmChannel`. -/
def pwmChannel (T : Target) : ℕ := T.EINK_FRONTLIGHT_PWM_CHANNEL

/-! ## The PWM driver, seen from the controller -/

/-- A call made on the PWM driver.  `SetDutyCycleToReloadValue` carries no
argument: the only pointer ever passed is `&dutyCycleToReloadValue`. -/
inductive PWMCall where
  | Create (pwmInstance pwmModule channel frequency : ℕ)
  | SetDutyCycleToReloadValue
  | SetDutyCycle (dutyCyclePercent channel : ℕ)
  | Start (channel : ℕ)
  | Stop (channel : ℕ)
  | UpdateClockFrequency (newFrequency pwmFreq_Hz : ℕ)
  deriving DecidableEq, Repr

/-- Modelled from the spec: the state of the hardware abstraction
(`drivers::DriverPWM`, whose implementation is not in the translated file).
`calls` is every call received, oldest first; `reloadValue` is the duty-cycle
register of the channel (`none` until it is first written); `generating` tells
whether the signal is being generated. -/
structure DriverPWM where
  calls : List PWMCall
  frequency : ℕ
  cpuFrequency : Option ℕ
  toReloadValue : ℕ → ℕ
  reloadValue : Option ℕ
  generating : Bool

/-- The handle `drivers::DriverPWM::Create` returns: the channel binding. -/
structure Handle where
  pwmInstance : ℕ
  pwmModule : ℕ
  channel : ℕ
  deriving DecidableEq, Repr

namespace DriverPWM

/-- Modelled from the spec: `create(instance, module, params{channel,
frequencyHz}) -> ChannelHandle`; the channel is configured with the frequency
and is not generating (`init()` leads to `Bound·Off`). -/
def Create (T : Target) (d : DriverPWM) (pwmInstance pwmModule channel frequency : ℕ) :
    Handle × DriverPWM :=
  (⟨pwmInstance, pwmModule, channel⟩,
   { calls := d.calls ++ [.Create pwmInstance pwmModule channel frequency]
     frequency := frequency
     cpuFrequency := d.cpuFrequency
     toReloadValue := T.defaultMapping
     reloadValue := none
     generating := false })

/-- Modelled from the spec: `setDutyCycleMapping(handle, fn)` registers the
value-translation callback. -/
def SetDutyCycleToReloadValue (d : DriverPWM) (fn : ℕ → ℕ) : DriverPWM :=
  { d with calls := d.calls ++ [.SetDutyCycleToReloadValue], toReloadValue := fn }

/-- Modelled from the spec: `setDutyCycle` writes the channel's duty-cycle
register with the registered mapping applied to the percentage; it neither
starts nor stops the signal. -/
def SetDutyCycle (d : DriverPWM) (dutyCyclePercent channel : ℕ) : DriverPWM :=
  { d with calls := d.calls ++ [.SetDutyCycle dutyCyclePercent channel],
           reloadValue := some (d.toReloadValue dutyCyclePercent) }

/-- Modelled from the spec: `start(handle, channel)` starts signal generation. -/
def Start (d : DriverPWM) (channel : ℕ) : DriverPWM :=
  { d with calls := d.calls ++ [.Start channel], generating := true }

/-- Modelled from the spec: `stop(handle, channel)` stops signal generation. -/
def Stop (d : DriverPWM) (channel : ℕ) : DriverPWM :=
  { d with calls := d.calls ++ [.Stop channel], generating := false }

/-- Modelled from the spec: `updateClockFrequency(handle, newCpuFreqMHz,
newPwmFreqHz)` retunes the channel and leaves the duty cycle and the on/off
state alone. -/
def UpdateClockFrequency (d : DriverPWM) (newFrequency pwmFreq_Hz : ℕ) : DriverPWM :=
  { d with calls := d.calls ++ [.UpdateClockFrequency newFrequency pwmFreq_Hz],
           frequency := pwmFreq_Hz, cpuFrequency := some newFrequency }

end DriverPWM

/-! ## The controller -/

/-- The globals of the translation unit (`pwm`, `gammaFactor`) together with
the hardware abstraction they act on.  `pwm = none` is the null pointer. -/
structure State where
  pwm : Option Handle
  gammaFactor : FloatVal
  hal : DriverPWM

/-- The state at program start: `pwm` is null, `gammaFactor = 2.5f`. -/
def State.start (hal : DriverPWM) : State :=
  { pwm := none, gammaFactor := .finite (5 / 2), hal := hal }

/-- The function `init()`. -/
def init (T : Target) (s : State) : State :=
  let created := DriverPWM.Create T s.hal T.EINK_FRONTLIGHT_PWM_INSTANCE
    T.EINK_FRONTLIGHT_PWM_MODULE (pwmChannel T) PWM_FREQUENCY_HZ
  { s with pwm := some created.1,
           hal := created.2.SetDutyCycleToReloadValue dutyCycleToReloadValue }

/-- The function `setBrightness(brightness)`: guarded by `if (pwm)`. -/
def setBrightness (T : Target) (s : State) (brightness : BrightnessPercentage) : State :=
  match s.pwm with
  | some _ =>
    { s with hal := s.hal.SetDutyCycle (gammaCorrection T s.gammaFactor brightness)
                      (pwmChannel T) }
  | none => s

/-- The function `turnOn()`: `pwm->Start(pwmChannel)` with no null check. -/
def turnOn (T : Target) (s : State) : Option State :=
  match s.pwm with
  | some _ => some { s with hal := s.hal.Start (pwmChannel T) }
  | none => none

/-- The function `turnOff()`: `pwm->Stop(pwmChannel)` with no null check. -/
def turnOff (T : Target) (s : State) : Option State :=
  match s.pwm with
  | some _ => some { s with hal := s.hal.Stop (pwmChannel T) }
  | none => none

/-- The function `deinit()`: calls `turnOff()`. -/
def deinit (T : Target) (s : State) : Option State :=
  turnOff T s

/-- The function `setGammaFactor(gamma)`. -/
def setGammaFactor (s : State) (gamma : FloatVal) : State :=
  { s with gammaFactor := gamma }

/-- The local `pwmFreq_Hz` of `updateClockFrequency`:
`convertedFrequency = static_cast<std::uint32_t>(newFrequency) * bsp::HzPerMHz`
and `pwmFreq_Hz = convertedFrequency * minDutyCycle / maxDutyCycle`, in 32-bit
unsigned arithmetic. -/
def pwmFreq_Hz (newFrequency : ℕ) : ℕ :=
  let convertedFrequency := newFrequency % 2 ^ 32 * HzPerMHz % 2 ^ 32
  convertedFrequency * minDutyCycle % 2 ^ 32 / maxDutyCycle

/-- The function `updateClockFrequency(newFrequency)`: the frequency is
computed first, then `pwm->UpdateClockFrequency` is called with no null
check. -/
def updateClockFrequency (s : State) (newFrequency : ℕ) : Option State :=
  match s.pwm with
  | some _ => some { s with hal := s.hal.UpdateClockFrequency newFrequency (pwmFreq_Hz newFrequency) }
  | none => none

/-- A concrete target on which the definitions are evaluated. -/
def sampleTarget : Target :=
  { EINK_FRONTLIGHT_PWM_INSTANCE := 2
    EINK_FRONTLIGHT_PWM_MODULE := 1
    EINK_FRONTLIGHT_PWM_CHANNEL := 1
    outOfRangeConversion := fun _ => 0
    defaultMapping := fun p => p }

/-- A hardware abstraction that has not been used yet. -/
def freshDriver : DriverPWM :=
  { calls := [], frequency := 0, cpuFrequency := none, toReloadValue := fun p => p,
    reloadValue := none, generating := false }

/-! ## Auxiliary facts -/

/-- A finite value whose truncation fits a byte converts to its integer part. -/
theorem toUInt8_finite_nonneg (T : Target) (q : ℚ) (h0 : 0 ≤ q) (h1 : q < 256) :
    toUInt8 T (.finite q) = ⌊q⌋₊ := by
  have hf0 : (0 : ℤ) ≤ ⌊q⌋ := Int.floor_nonneg.mpr h0
  have hf1 : ⌊q⌋ ≤ 255 := by
    have : ⌊q⌋ < 256 := Int.floor_lt.mpr (by exact_mod_cast h1)
    omega
  simp only [toUInt8, truncToInt, if_pos h0]
  rw [if_pos ⟨hf0, hf1⟩]
  exact Int.floor_toNat q

/-- The integer part of a percentage in `[0, 100]` is at most 100. -/
theorem natFloor_le_hundred (q : ℚ) (h1 : q ≤ 100) : ⌊q⌋₊ ≤ 100 := by
  have : ⌊q⌋₊ ≤ ⌊(100 : ℚ)⌋₊ := Nat.floor_mono h1
  simpa using this

/-- The correction of a percentage in `[0, 100]` is its integer part, whatever
the gamma factor. -/
theorem gammaCorrection_inRange (T : Target) (g : FloatVal) (q : ℚ) (h0 : 0 ≤ q)
    (h1 : q ≤ 100) : gammaCorrection T g (.finite q) = ⌊q⌋₊ := by
  unfold gammaCorrection
  exact toUInt8_finite_nonneg T q h0 (by linarith)

/-- Below `2 ^ 16 + 50` the narrowing to 16 bits is invisible. -/
theorem dutyCycleToReloadValue_eq (p : ℕ) (h : p ≤ 255) :
    dutyCycleToReloadValue p = if p < 50 then 0 else p - 50 := by
  unfold dutyCycleToReloadValue
  split
  · rfl
  · exact Nat.mod_eq_of_lt (by omega)

/-- Without wrap-around `pwmFreq_Hz` is a plain quotient. -/
theorem pwmFreq_Hz_noWrap (f : ℕ) (h : f * 2000000 < 2 ^ 32) :
    pwmFreq_Hz f = f * 1000000 * 2 / 65535 := by
  unfold pwmFreq_Hz HzPerMHz minDutyCycle maxDutyCycle
  have h1 : f % 2 ^ 32 = f := Nat.mod_eq_of_lt (by omega)
  have h2 : f * 1000000 % 2 ^ 32 = f * 1000000 := Nat.mod_eq_of_lt (by omega)
  have h3 : f * 1000000 * 2 % 2 ^ 32 = f * 1000000 * 2 := Nat.mod_eq_of_lt (by omega)
  simp only [h1, h2, h3]

/-! ## The duty-cycle mapper -/

/-- C1: for every percent `p` with `0 ≤ p ≤ 100`, `dutyCycleToReloadValue p`
is `0` when `p < 50` and `p - 50` when `50 ≤ p`. -/
theorem dutyCycleToReloadValue_threshold (p : ℕ) (h : p ≤ 100) :
    (p < 50 → dutyCycleToReloadValue p = 0) ∧
    (50 ≤ p → dutyCycleToReloadValue p = p - 50) := by
  rw [dutyCycleToReloadValue_eq p (by omega)]
  constructor
  · intro hp; rw [if_pos hp]
  · intro hp; rw [if_neg (by omega)]

/-- The mapper evaluated at 30 and at 75. -/
theorem dutyCycleToReloadValue_threshold_witness :
    dutyCycleToReloadValue 30 = 0 ∧ dutyCycleToReloadValue 75 = 75 - 50 :=
  ⟨(dutyCycleToReloadValue_threshold 30 (by decide)).1 (by decide),
   (dutyCycleToReloadValue_threshold 75 (by decide)).2 (by decide)⟩

/-! ## Brightness writes -/

/-- C2: for every brightness `q` in `[0, 100]`, `setBrightness q` after `init()`
writes the reload value obtained by the gamma corrector followed by the
registered duty-cycle mapper, which is `0` when the integer part of `q` is
below 50 and the integer part minus 50 otherwise; 75 writes 25, 30 writes 0. -/
theorem setBrightness_after_init (T : Target) (s : State) (q : ℚ) (h0 : 0 ≤ q)
    (h1 : q ≤ 100) :
    (setBrightness T (init T s) (.finite q)).hal.reloadValue
      = some (dutyCycleToReloadValue (gammaCorrection T (init T s).gammaFactor (.finite q))) ∧
    (setBrightness T (init T s) (.finite q)).hal.reloadValue
      = some (if ⌊q⌋₊ < 50 then 0 else ⌊q⌋₊ - 50) ∧
    (setBrightness T (init T s) (.finite q)).hal.calls
      = (init T s).hal.calls ++ [.SetDutyCycle ⌊q⌋₊ (pwmChannel T)] ∧
    (setBrightness T (init T s) (.finite 75)).hal.reloadValue = some 25 ∧
    (setBrightness T (init T s) (.finite 30)).hal.reloadValue = some 0 := by
  have hg : ∀ r : ℚ, 0 ≤ r → r ≤ 100 →
      (setBrightness T (init T s) (.finite r)).hal.reloadValue
        = some (dutyCycleToReloadValue ⌊r⌋₊) := by
    intro r hr0 hr1
    simp only [setBrightness, init, DriverPWM.SetDutyCycle, DriverPWM.SetDutyCycleToReloadValue,
      DriverPWM.Create]
    rw [gammaCorrection_inRange T _ r hr0 hr1]
  have hfl := natFloor_le_hundred q h1
  refine ⟨?_, ?_, ?_, ?_, ?_⟩
  · rw [hg q h0 h1, gammaCorrection_inRange T _ q h0 h1]
  · rw [hg q h0 h1, dutyCycleToReloadValue_eq _ (by omega)]
  · simp only [setBrightness, init, DriverPWM.SetDutyCycle]
    rw [gammaCorrection_inRange T _ q h0 h1]
  · rw [hg 75 (by norm_num) (by norm_num)]
    have : ⌊(75 : ℚ)⌋₊ = 75 := Nat.floor_ofNat 75
    rw [this]; rfl
  · rw [hg 30 (by norm_num) (by norm_num)]
    have : ⌊(30 : ℚ)⌋₊ = 30 := Nat.floor_ofNat 30
    rw [this]; rfl

/-- On the sample target, from program start: `init()` then
`setBrightness(75)` writes 25. -/
theorem setBrightness_after_init_witness :
    (0 : ℚ) ≤ 75 ∧ (75 : ℚ) ≤ 100 ∧
    (setBrightness sampleTarget (init sampleTarget (State.start freshDriver))
      (.finite 75)).hal.reloadValue = some 25 :=
  ⟨by norm_num, by norm_num,
   (setBrightness_after_init sampleTarget (State.start freshDriver) 75
      (by norm_num) (by norm_num)).2.2.2.1⟩

/-- C3: the result of `std::clamp` is dropped, so a brightness of 150 reaches
the driver as 150, whereas the clamped brightness would reach it as 100. -/
theorem gammaCorrection_drops_clamp (T : Target) (s : State) :
    clamp (.finite 150) (.finite 0) (.finite 100) = .finite 100 ∧
    gammaCorrection T s.gammaFactor (.finite 100) = 100 ∧
    gammaCorrection T s.gammaFactor (.finite 150) = 150 ∧
    (setBrightness T (init T s) (.finite 150)).hal.calls
      = (init T s).hal.calls ++ [.SetDutyCycle 150 (pwmChannel T)] := by
  have h150 : ∀ g, gammaCorrection T g (.finite 150) = 150 := by
    intro g
    unfold gammaCorrection
    rw [toUInt8_finite_nonneg T 150 (by norm_num) (by norm_num)]
    exact Nat.floor_ofNat 150
  refine ⟨?_, ?_, h150 _, ?_⟩
  · have h1 : ¬ ((150 : ℚ) < 0) := by norm_num
    have h2 : (100 : ℚ) < 150 := by norm_num
    simp [clamp, FloatVal.lt, h1, h2]
  · rw [gammaCorrection_inRange T _ 100 (by norm_num) (by norm_num)]
    exact Nat.floor_ofNat 100
  · simp only [setBrightness, init, DriverPWM.SetDutyCycle]
    rw [h150]

/-! ## Calls before `init()` -/

/-- C4: with a null `pwm`, `setBrightness` returns the state unchanged, while
`turnOn`, `turnOff` and `updateClockFrequency` dereference the null pointer. -/
theorem calls_before_init (T : Target) (g : FloatVal) (hal : DriverPWM)
    (b : BrightnessPercentage) (f : ℕ) :
    setBrightness T ⟨none, g, hal⟩ b = ⟨none, g, hal⟩ ∧
    turnOn T ⟨none, g, hal⟩ = none ∧
    turnOff T ⟨none, g, hal⟩ = none ∧
    updateClockFrequency ⟨none, g, hal⟩ f = none :=
  ⟨rfl, rfl, rfl, rfl⟩

/-! ## The PWM frequency -/

/-- C5 as stated fails: at 528 MHz the code computes 16113 Hz, not the 32227 Hz
of `cpuFreqHz * (2 * minDutyCycle) / maxDutyCycle`, and the exact quotient of
PWM frequency by CPU frequency is not `2 * minDutyCycle / maxDutyCycle`. -/
theorem pwmFreq_Hz_not_twice_minDutyCycle :
    pwmFreq_Hz 528 = 16113 ∧
    528 * 1000000 * (2 * minDutyCycle) / maxDutyCycle = 32227 ∧
    ¬ (∀ f : ℕ, 0 < f →
        pwmFreq_Hz f = f * 1000000 * (2 * minDutyCycle) / maxDutyCycle) ∧
    ¬ (∀ f : ℕ, 0 < f →
        (pwmFreq_Hz f : ℚ) / (f * 1000000) = 2 * minDutyCycle / maxDutyCycle) := by
  have h528 : pwmFreq_Hz 528 = 16113 := by decide
  refine ⟨h528, by decide, ?_, ?_⟩
  · intro h
    have := h 528 (by decide)
    rw [h528] at this
    revert this
    decide
  · intro h
    have := h 528 (by decide)
    rw [h528] at this
    revert this
    norm_num [minDutyCycle, maxDutyCycle]

/-- C5 (amended): for every CPU frequency `f > 0` in MHz whose doubled value in
Hz fits 32 bits, `updateClockFrequency f` computes
`cpuFreqHz * minDutyCycle / maxDutyCycle` rounded down, with
`cpuFreqHz = f * 1000000`, `minDutyCycle = 2` and `maxDutyCycle = 65535`, so
the PWM frequency follows the CPU frequency by the fixed factor
`minDutyCycle / maxDutyCycle` up to that rounding. -/
theorem pwmFreq_Hz_fixed_factor (f : ℕ) (hf : 0 < f) (hw : f * 2000000 < 2 ^ 32) :
    minDutyCycle = 2 ∧ maxDutyCycle = 65535 ∧ HzPerMHz = 1000000 ∧
    pwmFreq_Hz f = f * HzPerMHz * minDutyCycle / maxDutyCycle ∧
    pwmFreq_Hz f * maxDutyCycle ≤ f * HzPerMHz * minDutyCycle ∧
    f * HzPerMHz * minDutyCycle < (pwmFreq_Hz f + 1) * maxDutyCycle ∧
    0 < pwmFreq_Hz f ∧
    ∀ (s : State) (hd : Handle), s.pwm = some hd →
      (updateClockFrequency s f).map (fun s1 => s1.hal.calls)
        = some (s.hal.calls ++
            [.UpdateClockFrequency f (f * HzPerMHz * minDutyCycle / maxDutyCycle)]) := by
  have hq := pwmFreq_Hz_noWrap f hw
  have hval : pwmFreq_Hz f = f * HzPerMHz * minDutyCycle / maxDutyCycle := by
    rw [hq]; rfl
  refine ⟨rfl, rfl, rfl, hval, ?_, ?_, ?_, ?_⟩
  · rw [hval]
    exact Nat.div_mul_le_self _ _
  · rw [hval]
    have hm := Nat.lt_mul_div_succ (f * HzPerMHz * minDutyCycle)
      (show 0 < maxDutyCycle by decide)
    calc f * HzPerMHz * minDutyCycle
        < maxDutyCycle * (f * HzPerMHz * minDutyCycle / maxDutyCycle + 1) := hm
      _ = (f * HzPerMHz * minDutyCycle / maxDutyCycle + 1) * maxDutyCycle := Nat.mul_comm _ _
  · rw [hq]
    exact Nat.div_pos (by omega) (by decide)
  · intro s hd hs
    simp only [updateClockFrequency, hs, Option.map_some', DriverPWM.UpdateClockFrequency]
    rw [hval]

/-- The computation at 528 MHz. -/
theorem pwmFreq_Hz_fixed_factor_witness :
    0 < 528 ∧ 528 * 2000000 < 2 ^ 32 ∧
    pwmFreq_Hz 528 = 528 * HzPerMHz * minDutyCycle / maxDutyCycle ∧
    pwmFreq_Hz 528 * maxDutyCycle ≤ 528 * HzPerMHz * minDutyCycle :=
  ⟨by decide, by decide,
   (pwmFreq_Hz_fixed_factor 528 (by decide) (by decide)).2.2.2.1,
   (pwmFreq_Hz_fixed_factor 528 (by decide) (by decide)).2.2.2.2.1⟩

/-- C6: when `f * 2000000 < 2 ^ 32`, `updateClockFrequency f` after `init()`
hands the driver exactly the pair `(f, f * 1000000 * 2 / 65535)` (quotient
rounded down); for `f = 528` the PWM frequency is
`528000000 * 2 / 65535 = 16113` Hz. -/
theorem updateClockFrequency_after_init (T : Target) (s : State) (f : ℕ)
    (hw : f * 2000000 < 2 ^ 32) :
    (updateClockFrequency (init T s) f).map (fun s1 => s1.hal.calls)
      = some ((init T s).hal.calls ++ [.UpdateClockFrequency f (f * 1000000 * 2 / 65535)]) ∧
    (updateClockFrequency (init T s) 528).map (fun s1 => s1.hal.calls)
      = some ((init T s).hal.calls ++ [.UpdateClockFrequency 528 16113]) ∧
    528000000 * 2 / 65535 = 16113 := by
  refine ⟨?_, ?_, by decide⟩
  · simp only [updateClockFrequency, init, Option.map_some', DriverPWM.UpdateClockFrequency]
    rw [pwmFreq_Hz_noWrap f hw]
  · simp only [updateClockFrequency, init, Option.map_some', DriverPWM.UpdateClockFrequency]
    rw [pwmFreq_Hz_noWrap 528 (by decide)]

/-- On the sample target, from program start, at 264 MHz. -/
theorem updateClockFrequency_after_init_witness :
    264 * 2000000 < 2 ^ 32 ∧
    (updateClockFrequency (init sampleTarget (State.start freshDriver)) 264).map
        (fun s1 => s1.hal.calls)
      = some ((init sampleTarget (State.start freshDriver)).hal.calls
          ++ [.UpdateClockFrequency 264 (264 * 1000000 * 2 / 65535)]) :=
  ⟨by decide,
   (updateClockFrequency_after_init sampleTarget (State.start freshDriver) 264
      (by decide)).1⟩

/-! ## On/off state and frame properties -/

/-- C7: on an initialised controller `turnOn()` then `turnOff()` leaves the
channel stopped, and a following `setBrightness b` issues one duty-cycle write
and nothing else, so the channel stays stopped, for every brightness `b`. -/
theorem setBrightness_does_not_restart (T : Target) (s : State) (hd : Handle)
    (h : s.pwm = some hd) (b : BrightnessPercentage) :
    ∃ s1 s2 : State, turnOn T s = some s1 ∧ turnOff T s1 = some s2 ∧
      s1.hal.generating = true ∧
      s2.hal.generating = false ∧
      s2.hal.calls = s.hal.calls ++ [.Start (pwmChannel T), .Stop (pwmChannel T)] ∧
      (setBrightness T s2 b).hal.generating = false ∧
      (setBrightness T s2 b).hal.calls
        = s2.hal.calls ++ [.SetDutyCycle (gammaCorrection T s2.gammaFactor b) (pwmChannel T)] := by
  refine ⟨{ s with hal := s.hal.Start (pwmChannel T) },
    { s with hal := (s.hal.Start (pwmChannel T)).Stop (pwmChannel T) }, ?_, ?_, rfl, rfl, ?_, ?_, ?_⟩
  · simp only [turnOn, h]
  · simp only [turnOff, h]
  · simp [DriverPWM.Start, DriverPWM.Stop]
  · simp only [setBrightness, h, DriverPWM.SetDutyCycle, DriverPWM.Stop]
  · simp only [setBrightness, h, DriverPWM.SetDutyCycle]

/-- On the sample target: `init()`, `turnOn()`, `turnOff()`,
`setBrightness(60)`. -/
theorem setBrightness_does_not_restart_witness :
    (init sampleTarget (State.start freshDriver)).pwm = some ⟨2, 1, 1⟩ ∧
    ∃ s1 s2 : State,
      turnOn sampleTarget (init sampleTarget (State.start freshDriver)) = some s1 ∧
      turnOff sampleTarget s1 = some s2 ∧
      s1.hal.generating = true ∧
      s2.hal.generating = false ∧
      s2.hal.calls = (init sampleTarget (State.start freshDriver)).hal.calls
        ++ [.Start (pwmChannel sampleTarget), .Stop (pwmChannel sampleTarget)] ∧
      (setBrightness sampleTarget s2 (.finite 60)).hal.generating = false ∧
      (setBrightness sampleTarget s2 (.finite 60)).hal.calls
        = s2.hal.calls ++ [.SetDutyCycle
            (gammaCorrection sampleTarget s2.gammaFactor (.finite 60))
            (pwmChannel sampleTarget)] :=
  ⟨rfl, setBrightness_does_not_restart sampleTarget
    (init sampleTarget (State.start freshDriver)) ⟨2, 1, 1⟩ rfl (.finite 60)⟩

/-- C8: on an initialised controller, generating or not, `updateClockFrequency f`
issues exactly one retune request and nothing else; the written duty cycle,
the registered mapping, the on/off state, the channel binding and the gamma
factor are what they were before the call. -/
theorem updateClockFrequency_frame (s : State) (hd : Handle) (h : s.pwm = some hd)
    (f : ℕ) :
    ∃ s1 : State, updateClockFrequency s f = some s1 ∧
      s1.hal.calls = s.hal.calls ++ [.UpdateClockFrequency f (pwmFreq_Hz f)] ∧
      s1.hal.reloadValue = s.hal.reloadValue ∧
      s1.hal.toReloadValue = s.hal.toReloadValue ∧
      s1.hal.generating = s.hal.generating ∧
      s1.pwm = s.pwm ∧
      s1.gammaFactor = s.gammaFactor := by
  refine ⟨{ s with hal := s.hal.UpdateClockFrequency f (pwmFreq_Hz f) }, ?_,
    rfl, rfl, rfl, rfl, rfl, rfl⟩
  simp only [updateClockFrequency, h]

/-- On the sample target, with a duty cycle written: `init()`,
`setBrightness(75)`, then the controller is retuned to 132 MHz. -/
theorem updateClockFrequency_frame_witness :
    (setBrightness sampleTarget (init sampleTarget (State.start freshDriver))
      (.finite 75)).pwm = some ⟨2, 1, 1⟩ ∧
    ∃ s1 : State,
      updateClockFrequency (setBrightness sampleTarget
        (init sampleTarget (State.start freshDriver)) (.finite 75)) 132 = some s1 ∧
      s1.hal.reloadValue = (setBrightness sampleTarget
        (init sampleTarget (State.start freshDriver)) (.finite 75)).hal.reloadValue ∧
      s1.hal.generating = false :=
  ⟨rfl,
   match updateClockFrequency_frame (setBrightness sampleTarget
      (init sampleTarget (State.start freshDriver)) (.finite 75)) ⟨2, 1, 1⟩ rfl 132 with
   | ⟨s1, h1, _, h3, _, h5, _, _⟩ => ⟨s1, h1, h3, h5⟩⟩

/-! ## The gamma corrector -/

/-- C9: for every brightness `q` in `[0, 100]` and every gamma factor, the
gamma corrector returns the integer part of `q`, a value in `[0, 100]`,
whatever the factor is; two runs that differ only in the factor installed by
`setGammaFactor` leave the hardware abstraction in the same state after
`setBrightness q`, and in particular write the same duty cycle. -/
theorem gammaCorrection_ignores_gammaFactor (T : Target) (s : State) (q : ℚ)
    (h0 : 0 ≤ q) (h1 : q ≤ 100) (g1 g2 : FloatVal) :
    gammaCorrection T g1 (.finite q) = ⌊q⌋₊ ∧
    gammaCorrection T g1 (.finite q) ≤ 100 ∧
    gammaCorrection T g1 (.finite q) = gammaCorrection T g2 (.finite q) ∧
    (setGammaFactor s g1).gammaFactor = g1 ∧
    (setBrightness T (setGammaFactor s g1) (.finite q)).hal
      = (setBrightness T (setGammaFactor s g2) (.finite q)).hal ∧
    (setBrightness T (setGammaFactor s g1) (.finite q)).hal.reloadValue
      = (setBrightness T (setGammaFactor s g2) (.finite q)).hal.reloadValue := by
  have e1 := gammaCorrection_inRange T g1 q h0 h1
  have e2 := gammaCorrection_inRange T g2 q h0 h1
  have hh : (setBrightness T (setGammaFactor s g1) (.finite q)).hal
      = (setBrightness T (setGammaFactor s g2) (.finite q)).hal := by
    unfold setBrightness setGammaFactor
    cases hp : s.pwm with
    | none => rfl
    | some hd => simp only [e1, e2]
  refine ⟨e1, ?_, ?_, rfl, hh, ?_⟩
  · rw [e1]; exact natFloor_le_hundred q h1
  · rw [e1, e2]
  · rw [hh]

/-- On the sample target after `init()`: brightness 80 under the factors 2.5
and 1. -/
theorem gammaCorrection_ignores_gammaFactor_witness :
    (0 : ℚ) ≤ 80 ∧ (80 : ℚ) ≤ 100 ∧
    gammaCorrection sampleTarget (.finite (5 / 2)) (.finite 80)
      = gammaCorrection sampleTarget (.finite 1) (.finite 80) ∧
    (setBrightness sampleTarget
        (setGammaFactor (init sampleTarget (State.start freshDriver)) (.finite (5 / 2)))
        (.finite 80)).hal.reloadValue
      = (setBrightness sampleTarget
        (setGammaFactor (init sampleTarget (State.start freshDriver)) (.finite 1))
        (.finite 80)).hal.reloadValue :=
  ⟨by norm_num, by norm_num,
   (gammaCorrection_ignores_gammaFactor sampleTarget
      (init sampleTarget (State.start freshDriver)) 80 (by norm_num) (by norm_num)
      (.finite (5 / 2)) (.finite 1)).2.2.1,
   (gammaCorrection_ignores_gammaFactor sampleTarget
      (init sampleTarget (State.start freshDriver)) 80 (by norm_num) (by norm_num)
      (.finite (5 / 2)) (.finite 1)).2.2.2.2.2⟩

/-! ## `deinit()` -/

/-- C10: on an initialised controller `deinit()` is `turnOff()`: it issues one
stop on the channel and leaves the binding and the gamma factor as they were,
so a later `setBrightness b` still issues a duty-cycle write, for every `b`,
and is not a no-op. -/
theorem deinit_keeps_binding (T : Target) (s : State) (hd : Handle)
    (h : s.pwm = some hd) (b : BrightnessPercentage) :
    deinit T s = turnOff T s ∧
    ∃ s1 : State, deinit T s = some s1 ∧
      s1.hal.calls = s.hal.calls ++ [.Stop (pwmChannel T)] ∧
      s1.pwm = some hd ∧
      s1.gammaFactor = s.gammaFactor ∧
      (setBrightness T s1 b).hal.calls
        = s1.hal.calls ++ [.SetDutyCycle (gammaCorrection T s1.gammaFactor b) (pwmChannel T)] ∧
      setBrightness T s1 b ≠ s1 := by
  refine ⟨rfl, { s with hal := s.hal.Stop (pwmChannel T) }, ?_, rfl, h, rfl, ?_, ?_⟩
  · simp only [deinit, turnOff, h]
  · simp only [setBrightness, h, DriverPWM.SetDutyCycle]
  · intro he
    have hl := congrArg (fun t : State => t.hal.calls.length) he
    simp [setBrightness, h, DriverPWM.SetDutyCycle] at hl

/-- On the sample target: `init()`, `deinit()`, `setBrightness(75)`. -/
theorem deinit_keeps_binding_witness :
    (init sampleTarget (State.start freshDriver)).pwm = some ⟨2, 1, 1⟩ ∧
    ∃ s1 : State, deinit sampleTarget (init sampleTarget (State.start freshDriver)) = some s1 ∧
      s1.pwm = some ⟨2, 1, 1⟩ ∧
      setBrightness sampleTarget s1 (.finite 75) ≠ s1 :=
  ⟨rfl,
   match (deinit_keeps_binding sampleTarget (init sampleTarget (State.start freshDriver))
      ⟨2, 1, 1⟩ rfl (.finite 75)).2 with
   | ⟨s1, h1, _, h3, _, _, h6⟩ => ⟨s1, h1, h3, h6⟩⟩

end EinkFrontlight
